import Mathlib

/-
  Shallow embedding of the result-aggregation and reporting module
  reconbf/lib/result.py: outcome constants, result records, group records,
  the results collection, the visibility filter, and the four renderers
  (terminal, CSV, JSON, HTML).

  Python integers become Int; Python None / optional values become Option;
  code that can raise (dict subscript lookups, file opens) returns
  Except PyExn. File-system interaction is modelled by a FileSystem record
  giving the outcome of open-for-write and read-file per path.
-/

namespace Recon

/-- Exceptions this module can raise or catch: KeyError from a dict subscript
lookup with a missing key, EnvironmentError from file operations. -/
inductive PyExn where
  | keyError : PyExn
  | environmentError : PyExn
  deriving DecidableEq

/-- Outcome constant Result.PASS (result.py line 84). -/
def Result.PASS : Int := 1

/-- Outcome constant Result.FAIL (result.py line 85). -/
def Result.FAIL : Int := 2

/-- Outcome constant Result.SKIP (result.py line 86). -/
def Result.SKIP : Int := 3

/-- Confidence constant Result.CONF_SURE (result.py line 88). -/
def Result.CONF_SURE : Int := 1

/-- Confidence constant Result.CONF_GUESS (result.py line 89). -/
def Result.CONF_GUESS : Int := 3

/-- Verbosity constant ResultDisplayType.DISPLAY_ALL (result.py line 97). -/
def ResultDisplayType.DISPLAY_ALL : Int := 4

/-- Verbosity constant ResultDisplayType.DISPLAY_NOT_PASS (result.py line 98). -/
def ResultDisplayType.DISPLAY_NOT_PASS : Int := 3

/-- Verbosity constant ResultDisplayType.DISPLAY_FAIL_ONLY (result.py line 99). -/
def ResultDisplayType.DISPLAY_FAIL_ONLY : Int := 2

/-- Verbosity constant ResultDisplayType.DISPLAY_OVERALL_ONLY (result.py line 100). -/
def ResultDisplayType.DISPLAY_OVERALL_ONLY : Int := 1

/-- A single test result (result.py class TestResult, lines 408-424):
outcome, optional notes, confidence. The confidence slot is Option Int
because the terminal renderer passes None for group parent rows and Python
is dynamically typed. -/
structure TestResult where
  result : Int
  notes : Option String
  confidence : Option Int
  deriving DecidableEq

/-- A group of named sub-results with a derived aggregate outcome
(result.py class GroupTestResult, lines 427-468). -/
structure GroupTestResult where
  _results_list : List (String × TestResult)
  _group_result : Int
  deriving DecidableEq

/-- GroupTestResult.__init__ (result.py lines 429-431): empty member list,
aggregate starts at SKIP. -/
def GroupTestResult.init : GroupTestResult :=
  { _results_list := [], _group_result := Result.SKIP }

/-- GroupTestResult.add_result (result.py lines 433-449): updates the
aggregate (PASS only from SKIP; FAIL always wins) and appends the member. -/
def GroupTestResult.add_result (g : GroupTestResult) (name : String)
    (result : TestResult) : GroupTestResult where
  _results_list := g._results_list ++ [(name, result)]
  _group_result :=
    if result.result = Result.PASS ∧ g._group_result = Result.SKIP then Result.PASS
    else if result.result = Result.FAIL then Result.FAIL
    else g._group_result

/-- GroupTestResult.result property (result.py lines 451-457). -/
def GroupTestResult.result (g : GroupTestResult) : Int := g._group_result

/-- The polymorphic value of a results-collection entry: either a bare
TestResult or a GroupTestResult (runtime isinstance dispatch in the source). -/
inductive ResultValue where
  | single : TestResult → ResultValue
  | group : GroupTestResult → ResultValue
  deriving DecidableEq

/-- An entry of the results collection: a dict with keys name and result. -/
structure Entry where
  name : String
  result : ResultValue
  deriving DecidableEq

/-- The results collection (result.py class TestResults, lines 103-106). -/
structure TestResults where
  _results : List Entry
  deriving DecidableEq

/-- TestResults.add_results (result.py lines 108-116): appends each new
entry in order. -/
def TestResults.add_results (t : TestResults) (new_results : List Entry) :
    TestResults :=
  { _results := t._results ++ new_results }

/-- The visibility filter _check_display_result (result.py lines 539-563). -/
def _check_display_result (result : Int) (display_mode : Int) : Bool :=
  if display_mode = ResultDisplayType.DISPLAY_ALL then true
  else if result = Result.FAIL ∧
      display_mode ≥ ResultDisplayType.DISPLAY_FAIL_ONLY then true
  else if result = Result.SKIP ∧
      display_mode ≥ ResultDisplayType.DISPLAY_NOT_PASS then true
  else false

/-- The aggregate-outcome update performed by one GroupTestResult.add_result
call (result.py lines 444-447), as a function of the current aggregate and
the outcome of the added member. -/
def aggStep (agg : Int) (r : Int) : Int :=
  if r = Result.PASS ∧ agg = Result.SKIP then Result.PASS
  else if r = Result.FAIL then Result.FAIL
  else agg

/-- A GroupTestResult built from a fresh group by a sequence of
add_result calls. -/
def group_of_adds (adds : List (String × TestResult)) : GroupTestResult :=
  adds.foldl (fun g a => g.add_result a.1 a.2) GroupTestResult.init

/-- TestResults.had_failures (result.py lines 227-236). For a bare TestResult
entry the source compares the TestResult object itself with the int constant
Result.FAIL; a TestResult instance never equals an int in Python, so that
branch is constantly false. For a group entry the aggregate outcome property
is compared. -/
def TestResults.had_failures (t : TestResults) : Bool :=
  t._results.any fun r =>
    match r.result with
    | ResultValue.single _ => false
    | ResultValue.group g => g.result == Result.FAIL

/-- The outcome-to-text conversion _result_text (result.py lines 672-680);
returns the Python None (here: Option.none) for an unknown outcome. -/
def _result_text (result : Int) : Option String :=
  if result = Result.PASS then some "PASS"
  else if result = Result.FAIL then some "FAIL"
  else if result = Result.SKIP then some "SKIP"
  else none

/-- The CSV confidence-to-text conversion _confidence_text (result.py lines
683-687): a dict get call, total, None for any unknown value. -/
def _confidence_text (result : Option Int) : Option String :=
  if result = some Result.CONF_GUESS then some "guess"
  else if result = some Result.CONF_SURE then some "sure"
  else none

/-- The confidence dict subscript lookup in _build_result_string (result.py
lines 501-505): keys CONF_SURE, CONF_GUESS and None; any other key raises
KeyError. -/
def conf_string_lookup (confidence : Option Int) : Except PyExn String :=
  if confidence = some Result.CONF_SURE then Except.ok ""
  else if confidence = some Result.CONF_GUESS then Except.ok "guess"
  else if confidence = none then Except.ok ""
  else Except.error PyExn.keyError

/-- The outcome-to-CSS-class dict lookup _result_to_class (result.py lines
613-623); the subscript raises KeyError for an unknown outcome. -/
def _result_to_class (res : Int) : Except PyExn String :=
  if res = Result.PASS then Except.ok "test_pass"
  else if res = Result.FAIL then Except.ok "test_fail"
  else if res = Result.SKIP then Except.ok "test_skip"
  else Except.error PyExn.keyError

/-- cgi.escape with default arguments: ampersand first, then the angle
brackets. -/
def cgi_escape (s : String) : String :=
  ((s.replace "&" "&amp;").replace "<" "&lt;").replace ">" "&gt;"

/-- Python str() of a value that is a string or None, as used by the format
calls in the HTML row builders. -/
def py_str_opt (o : Option String) : String :=
  match o with
  | some s => s
  | none => "None"

/-- The Python format spec used throughout the terminal renderer: left align
and pad with spaces up to the given width, never truncating. -/
def format_pad (s : String) (width : Int) : String :=
  s ++ String.mk (List.replicate (width.toNat - s.length) ' ')

/-- Python slice s[0:stop]: a negative stop counts from the end of the
string and clamps at zero. -/
def py_slice_to (s : String) (stop : Int) : String :=
  if 0 ≤ stop then String.mk (s.toList.take stop.toNat)
  else String.mk (s.toList.take (s.length - (-stop).toNat))

/-- The field-width dict built by display_on_terminal (result.py lines
131-132). -/
structure Widths where
  TEST_NAME : Int
  TEST_RESULT : Int
  TEST_CONFIDENCE : Int
  TOTAL : Int
  deriving DecidableEq

/-- The widths dict with the fixed name, result and confidence columns and
the detected terminal width as the total (result.py lines 131-132). -/
def display_widths (term_width : Int) : Widths :=
  { TEST_NAME := 60, TEST_RESULT := 9, TEST_CONFIDENCE := 11, TOTAL := term_width }

/-- The notes column width computation (result.py lines 133-134). -/
def notes_width (widths : Widths) : Int :=
  widths.TOTAL - widths.TEST_NAME - widths.TEST_RESULT - widths.TEST_CONFIDENCE

/-- The notes truncation applied by display_on_terminal (result.py lines
160-162 for bare results and 187-189 for group members): a truthy notes
string longer than the notes column is cut to notes[0:width-3] plus three
dots. -/
def truncate_notes (notes : Option String) (nw : Int) : Option String :=
  match notes with
  | none => none
  | some n =>
      if n.length ≠ 0 ∧ (n.length : Int) > nw then
        some (py_slice_to n (nw - 3) ++ "...")
      else some n

/-- The terminal color dict built by _get_term_colors (result.py lines
626-642); the dict key end is spelled endc because end is reserved in Lean. -/
structure TermColors where
  pass : String
  fail : String
  skip : String
  endc : String
  deriving DecidableEq

/-- The row builder _build_result_string (result.py lines 471-536). The
confidence dict subscript can raise KeyError, so the result is Except. -/
def _build_result_string (name : String) (result : Int) (confidence : Option Int)
    (notes : Option String) (use_color : Bool) (term_colors : TermColors)
    (indent : Bool) (widths : Widths) : Except PyExn String :=
  let name_newline_str := "\n" ++ String.mk (List.replicate widths.TEST_NAME.toNat ' ')
  let color_and_text :=
    if result = Result.PASS then (term_colors.pass, "PASS")
    else if result = Result.SKIP then (term_colors.skip, "SKIP")
    else if result = Result.FAIL then (term_colors.fail, "FAIL")
    else ("", "")
  match conf_string_lookup confidence with
  | Except.error e => Except.error e
  | Except.ok conf_string =>
      let tab := if indent then "     " else ""
      let s1 := format_pad (tab ++ name) widths.TEST_NAME
      let s2 := if ((tab ++ name).length : Int) > widths.TEST_NAME then
          s1 ++ name_newline_str
        else s1
      let s3 := if use_color then s2 ++ color_and_text.1 else s2
      let s4 := s3 ++ format_pad color_and_text.2 widths.TEST_RESULT
      let s5 := if use_color then s4 ++ term_colors.endc else s4
      let s6 := s5 ++ format_pad conf_string widths.TEST_CONFIDENCE
      let s7 := match notes with
        | some n => if n.length ≠ 0 then s6 ++ n else s6
        | none => s6
      Except.ok s7

/-- The lines printed for one entry by display_on_terminal (result.py lines
149-223). For a group, the member rows are built first, whether or not they
end up printed, and are printed only when the parent aggregate row is
itself shown (visibility filter or the OVERALL_ONLY override). -/
def _terminal_entry_lines (res : Entry) (display_type : Int) (use_color : Bool)
    (term_colors : TermColors) (widths : Widths) (nw : Int) :
    Except PyExn (List String) :=
  match res.result with
  | ResultValue.single tr =>
      if _check_display_result tr.result display_type = true ∨
          display_type = ResultDisplayType.DISPLAY_OVERALL_ONLY then
        match _build_result_string res.name tr.result tr.confidence
            (truncate_notes tr.notes nw) use_color term_colors false widths with
        | Except.error e => Except.error e
        | Except.ok s => Except.ok [s]
      else Except.ok []
  | ResultValue.group g =>
      match (g._results_list.filter fun c =>
          _check_display_result c.2.result display_type).mapM
          (fun c => _build_result_string c.1 c.2.result c.2.confidence
            (truncate_notes c.2.notes nw) use_color term_colors true widths) with
      | Except.error e => Except.error e
      | Except.ok child_results =>
          if _check_display_result g.result display_type = true ∨
              display_type = ResultDisplayType.DISPLAY_OVERALL_ONLY then
            match _build_result_string res.name g.result none (some "")
                use_color term_colors false widths with
            | Except.error e => Except.error e
            | Except.ok parent_string =>
                Except.ok (parent_string :: child_results)
          else Except.ok []

/-- TestResults.display_on_terminal (result.py lines 118-225), modelled as
the list of printed lines: blank line, banner, column titles, banner, the
per-entry rows, final blank line. -/
def TestResults.display_on_terminal (t : TestResults) (use_color : Bool)
    (display_type : Int) (term_colors : TermColors) (term_width : Int) :
    Except PyExn (List String) :=
  let widths := display_widths term_width
  let nw := notes_width widths
  let banner := String.mk (List.replicate term_width.toNat '=')
  let title_row := format_pad "Test Name" widths.TEST_NAME ++
    format_pad "Result" widths.TEST_RESULT ++
    format_pad "Confidence" widths.TEST_CONFIDENCE ++ "Notes"
  match t._results.mapM (fun e =>
      _terminal_entry_lines e display_type use_color term_colors widths nw) with
  | Except.error e => Except.error e
  | Except.ok liness =>
      Except.ok (["\n", banner, title_row, banner] ++ liness.flatten ++ ["\n"])

/-- The leaf records of a collection in display order: a bare entry is one
leaf with no subtest name, a group entry contributes one leaf per member
with the member name as subtest name. -/
def TestResults.leaves (t : TestResults) :
    List (String × Option String × TestResult) :=
  t._results.flatMap fun e =>
    match e.result with
    | ResultValue.single tr => [(e.name, none, tr)]
    | ResultValue.group g => g._results_list.map fun s => (e.name, some s.1, s.2)

/-- The CSV cells for one leaf record. -/
def csv_row_of_leaf (l : String × Option String × TestResult) :
    List (Option String) :=
  [some l.1, l.2.1, _result_text l.2.2.result, l.2.2.notes,
    _confidence_text l.2.2.confidence]

/-- The CSV header row (result.py line 253). -/
def csv_header_row : List (Option String) :=
  [some "Test", some "Subtest", some "Result", some "Notes", some "Confidence"]

/-- The data rows built by TestResults.write_csv (result.py lines 255-276):
per group entry one row per member, per bare entry one row with a None
subtest cell. -/
def TestResults.csv_rows (t : TestResults) : List (List (Option String)) :=
  t._results.flatMap fun test_result =>
    match test_result.result with
    | ResultValue.group g =>
        g._results_list.map fun sub =>
          [some test_result.name, some sub.1, _result_text sub.2.result,
            sub.2.notes, _confidence_text sub.2.confidence]
    | ResultValue.single tr =>
        [[some test_result.name, none, _result_text tr.result, tr.notes,
          _confidence_text tr.confidence]]

/-- The file-system environment a writer runs against: the outcome of
opening a path for writing and of reading a file, per path. -/
structure FileSystem where
  open_write : String → Except PyExn Unit
  read_file : String → Except PyExn String

/-- What a writer did: the content written to the destination, if any, and
the log messages it emitted. -/
structure WriteOutcome (α : Type) where
  written : Option α
  logs : List String

/-- TestResults.write_csv (result.py lines 238-287): builds all rows, then
opens the destination; an EnvironmentError from the open is caught and
logged, otherwise header plus rows are written. -/
def TestResults.write_csv (t : TestResults) (filename : String)
    (fs : FileSystem) :
    Except PyExn (WriteOutcome (List (List (Option String)))) :=
  let prep := "Preparing to write CSV file [ " ++ filename ++ " ] "
  let rows := t.csv_rows
  match fs.open_write filename with
  | Except.error _ =>
      Except.ok
        { written := none,
          logs := [prep,
            "Unable to open CSV file [ " ++ filename ++ " ] for writing"] }
  | Except.ok _ =>
      Except.ok
        { written := some (csv_header_row :: rows),
          logs := [prep,
            "Writing CSV file: [ " ++ filename ++ " ] successful "] }

/-- A JSON value: what json.dump serializes here (strings, None, lists,
dicts with string keys in insertion order). -/
inductive JsonVal where
  | str : String → JsonVal
  | null : JsonVal
  | arr : List JsonVal → JsonVal
  | obj : List (String × JsonVal) → JsonVal

/-- A string-or-None value as a JSON value. -/
def json_opt (o : Option String) : JsonVal :=
  match o with
  | some s => JsonVal.str s
  | none => JsonVal.null

/-- The JSON object built for one group member by write_json (result.py
lines 386-393): name, result text, notes. -/
def json_of_member (m : String × TestResult) : JsonVal :=
  JsonVal.obj [("name", JsonVal.str m.1),
    ("result", json_opt (_result_text m.2.result)),
    ("notes", json_opt m.2.notes)]

/-- The list of serializable test objects built by TestResults.write_json
(result.py lines 374-395): per bare entry an object with name, result text
and notes; per group entry an object whose result field is the list of
member objects. -/
def TestResults.json_tests (t : TestResults) : List JsonVal :=
  t._results.map fun test =>
    match test.result with
    | ResultValue.single tr =>
        JsonVal.obj [("name", JsonVal.str test.name),
          ("result", json_opt (_result_text tr.result)),
          ("notes", json_opt tr.notes)]
    | ResultValue.group g =>
        JsonVal.obj [("name", JsonVal.str test.name),
          ("result", JsonVal.arr (g._results_list.map json_of_member))]

/-- The leaf objects carried by one serialized top-level test object: the
members of the result array for a group object, the object itself
otherwise. -/
def json_entry_leaves (j : JsonVal) : List JsonVal :=
  match j with
  | JsonVal.obj [_, (_, JsonVal.arr l)] => l
  | _ => [j]

/-- The expected JSON leaf object for one leaf record: named by the member
name inside a group, by the entry name otherwise. -/
def json_leaf_repr (l : String × Option String × TestResult) : JsonVal :=
  match l with
  | (name, none, tr) =>
      JsonVal.obj [("name", JsonVal.str name),
        ("result", json_opt (_result_text tr.result)),
        ("notes", json_opt tr.notes)]
  | (_, some sub, tr) =>
      JsonVal.obj [("name", JsonVal.str sub),
        ("result", json_opt (_result_text tr.result)),
        ("notes", json_opt tr.notes)]

/-- TestResults.write_json (result.py lines 363-405): builds the test list,
then opens the destination; an EnvironmentError from the open is caught and
logged, otherwise the array is dumped. -/
def TestResults.write_json (t : TestResults) (filename : String)
    (fs : FileSystem) : Except PyExn (WriteOutcome JsonVal) :=
  let prep := "Preparing to write JSON file [ " ++ filename ++ " ]"
  let tests := t.json_tests
  match fs.open_write filename with
  | Except.error _ =>
      Except.ok
        { written := none,
          logs := [prep,
            "Unable to open JSON file [ " ++ filename ++ " ] for writing!"] }
  | Except.ok _ =>
      Except.ok
        { written := some (JsonVal.arr tests),
          logs := [prep,
            "Writing JSON file: [ " ++ filename ++ " ] successful!"] }

/-- The HTML leaf row builder _create_html_result_row (result.py lines
566-590); the class lookup can raise KeyError. -/
def _create_html_result_row (name : String) (tr : TestResult)
    (do_indent : Bool) : Except PyExn String :=
  match _result_to_class tr.result with
  | Except.error e => Except.error e
  | Except.ok cls =>
      let indent_class := if do_indent then " class=result_indent" else ""
      let result_class := " class=" ++ cls
      Except.ok ("  <tr" ++ result_class ++ ">\n" ++
        "    <td" ++ indent_class ++ ">" ++ cgi_escape name ++ "</td>\n" ++
        "    <td" ++ result_class ++ ">" ++
          py_str_opt (_result_text tr.result) ++ "</td>\n" ++
        "    <td>" ++ cgi_escape (tr.notes.getD "") ++ "</td>\n" ++
        "  </tr>\n")

/-- The HTML group parent row builder _create_html_group_row (result.py
lines 593-610). -/
def _create_html_group_row (name : String) (g : GroupTestResult) :
    Except PyExn String :=
  match _result_to_class g.result with
  | Except.error e => Except.error e
  | Except.ok cls =>
      let result_class := " class=" ++ cls
      Except.ok ("  <tr" ++ result_class ++ ">\n" ++
        "    <td>" ++ cgi_escape name ++ "</td>\n" ++
        "    <td" ++ result_class ++ ">" ++
          py_str_opt (_result_text g.result) ++ "</td>\n" ++
        "    <td></td>\n" ++
        "  </tr>\n")

/-- The call _check_display_result(res, display_type) at result.py line 331
passes the whole entry dict res where an outcome int is expected. A dict
never equals the int constants Result.FAIL or Result.SKIP in Python, so
both outcome comparisons in the filter body are constantly false there and
only the DISPLAY_ALL branch can return true. -/
def _check_display_result_on_entry (display_mode : Int) : Bool :=
  if display_mode = ResultDisplayType.DISPLAY_ALL then true
  else if False ∧ display_mode ≥ ResultDisplayType.DISPLAY_FAIL_ONLY then true
  else if False ∧ display_mode ≥ ResultDisplayType.DISPLAY_NOT_PASS then true
  else false

/-- The HTML rows generated for one entry by TestResults.write_html
(result.py lines 305-341). Member rows of a group are appended outside the
parent-row conditional, so they appear whether or not the parent row does;
the parent-row conditional itself calls the filter on the entry dict (see
_check_display_result_on_entry). -/
def _html_entry_rows (res : Entry) (display_type : Int) :
    Except PyExn (List String) :=
  match res.result with
  | ResultValue.single tr =>
      if _check_display_result tr.result display_type = true ∨
          display_type = ResultDisplayType.DISPLAY_OVERALL_ONLY then
        match _create_html_result_row res.name tr false with
        | Except.error e => Except.error e
        | Except.ok row => Except.ok [row]
      else Except.ok []
  | ResultValue.group g =>
      match (g._results_list.filter fun c =>
          _check_display_result c.2.result display_type).mapM
          (fun c => _create_html_result_row c.1 c.2 true) with
      | Except.error e => Except.error e
      | Except.ok child_rows =>
          if _check_display_result_on_entry display_type = true ∨
              display_type = ResultDisplayType.DISPLAY_OVERALL_ONLY then
            match _create_html_group_row res.name g with
            | Except.error e => Except.error e
            | Except.ok parent_row => Except.ok (parent_row :: child_rows)
          else Except.ok child_rows

/-- The concatenated HTML row fragments for the whole collection (result.py
lines 301-341). -/
def TestResults.html_rows (t : TestResults) (display_type : Int) :
    Except PyExn String :=
  match t._results.mapM (fun e => _html_entry_rows e display_type) with
  | Except.error e => Except.error e
  | Except.ok rowss => Except.ok (String.join (rowss.map String.join))

/-- TestResults.write_html (result.py lines 289-361): builds all rows, then
reads the template (a read failure is caught, logged and aborts before any
output write), then opens the destination (an open failure is caught and
logged), otherwise writes the template with the marker replaced. -/
def TestResults.write_html (t : TestResults) (filename : String)
    (html_template : String) (display_type : Int) (fs : FileSystem) :
    Except PyExn (WriteOutcome String) :=
  let prep := "Preparing to write HTML file: [ " ++ filename ++ " ]"
  match t.html_rows display_type with
  | Except.error e => Except.error e
  | Except.ok rows =>
      match fs.read_file html_template with
      | Except.error _ =>
          Except.ok
            { written := none,
              logs := [prep,
                "Unable to open template file: [ " ++ html_template ++ " ]"] }
      | Except.ok template_content =>
          let content := template_content.replace "$$$RESULTS$$$" rows
          match fs.open_write filename with
          | Except.error _ =>
              Except.ok
                { written := none,
                  logs := [prep,
                    "Unable to open output file: [ " ++ filename ++
                      " ] for writing"] }
          | Except.ok _ =>
              Except.ok
                { written := some content,
                  logs := [prep,
                    "Successfully wrote HTML file: [ " ++ filename ++ " ]"] }

/-- A concrete add sequence for the claim C2 witness: a PASS member followed
by a FAIL member and a later PASS member. -/
def c2_adds : List (String × TestResult) :=
  [("a", { result := Result.PASS, notes := none, confidence := some Result.CONF_SURE }),
   ("b", { result := Result.FAIL, notes := none, confidence := some Result.CONF_SURE }),
   ("c", { result := Result.PASS, notes := none, confidence := some Result.CONF_SURE })]

/-- A collection holding a single bare FAIL result record, the claim C1
failing input. -/
def c1_collection : TestResults :=
  { _results :=
      [{ name := "t1",
         result := ResultValue.single
           { result := Result.FAIL, notes := none,
             confidence := some Result.CONF_SURE } }] }

/-- A collection holding one group whose aggregate is FAIL. -/
def c1_group_collection : TestResults :=
  { _results :=
      [{ name := "t2",
         result := ResultValue.group (GroupTestResult.init.add_result "m1"
           { result := Result.FAIL, notes := none,
             confidence := some Result.CONF_SURE }) }] }

/-- A group with one FAIL member, so its aggregate outcome is FAIL; the
claim C4 failing input. -/
def c4_group : GroupTestResult :=
  GroupTestResult.init.add_result "m1"
    { result := Result.FAIL, notes := none, confidence := some Result.CONF_SURE }

/-- The collection entry wrapping c4_group. -/
def c4_entry : Entry := { name := "grp", result := ResultValue.group c4_group }

/-- A group with one PASS member and one SKIP member, so its aggregate
outcome is PASS: at verbosity NOT_PASS the parent row is hidden while the
SKIP member itself passes the filter. -/
def c9_group : GroupTestResult :=
  (GroupTestResult.init.add_result "s1"
    { result := Result.PASS, notes := none,
      confidence := some Result.CONF_SURE }).add_result "s2"
    { result := Result.SKIP, notes := none, confidence := some Result.CONF_SURE }

/-- Terminal colors with empty escape strings, for concrete evaluations. -/
def default_colors : TermColors :=
  { pass := "", fail := "", skip := "", endc := "" }

/-- A file system on which every open and read succeeds. -/
def fs_all_ok : FileSystem :=
  { open_write := fun _ => Except.ok (),
    read_file := fun _ => Except.ok "$$$RESULTS$$$" }

/-- A file system on which every open and read raises EnvironmentError. -/
def fs_all_fail : FileSystem :=
  { open_write := fun _ => Except.error PyExn.environmentError,
    read_file := fun _ => Except.error PyExn.environmentError }

/-- A file system on which reads succeed but opening for write raises. -/
def fs_open_fail_read_ok : FileSystem :=
  { open_write := fun _ => Except.error PyExn.environmentError,
    read_file := fun _ => Except.ok "$$$RESULTS$$$" }

/-- A two-entry collection, one bare PASS record and one group with a FAIL
and a PASS member, used by the claim C5 witness. -/
def c5_collection : TestResults :=
  { _results := [
      { name := "check-a",
        result := ResultValue.single
          { result := Result.PASS, notes := none,
            confidence := some Result.CONF_SURE } },
      { name := "check-b",
        result := ResultValue.group
          ((GroupTestResult.init.add_result "s1"
            { result := Result.FAIL, notes := some "why",
              confidence := some Result.CONF_GUESS }).add_result "s2"
            { result := Result.PASS, notes := none,
              confidence := some Result.CONF_SURE }) } ] }

theorem add_result_group_result (g : GroupTestResult) (name : String)
    (r : TestResult) :
    (g.add_result name r)._group_result = aggStep g._group_result r.result := rfl

theorem add_result_results_list (g : GroupTestResult) (name : String)
    (r : TestResult) :
    (g.add_result name r)._results_list = g._results_list ++ [(name, r)] := rfl

theorem foldl_add_result_results_list (adds : List (String × TestResult)) :
    ∀ g : GroupTestResult,
      (adds.foldl (fun g a => g.add_result a.1 a.2) g)._results_list =
        g._results_list ++ adds := by
  induction adds with
  | nil => intro g; simp
  | cons a adds ih =>
      intro g
      simp only [List.foldl_cons, ih, add_result_results_list,
        List.append_assoc, List.singleton_append]

theorem foldl_add_result_group_result (adds : List (String × TestResult)) :
    ∀ g : GroupTestResult,
      (adds.foldl (fun g a => g.add_result a.1 a.2) g)._group_result =
        (adds.map fun a => a.2.result).foldl aggStep g._group_result := by
  induction adds with
  | nil => intro g; simp
  | cons a adds ih =>
      intro g
      simp only [List.foldl_cons, ih, add_result_group_result, List.map_cons]

theorem aggStep_fail (r : Int) : aggStep Result.FAIL r = Result.FAIL := by
  unfold aggStep Result.FAIL Result.PASS Result.SKIP
  split
  · omega
  · split <;> rfl

theorem agg_fold_from_fail (l : List Int) :
    l.foldl aggStep Result.FAIL = Result.FAIL := by
  induction l with
  | nil => rfl
  | cons r l ih => simp only [List.foldl_cons, aggStep_fail, ih]

theorem agg_fold_from_pass (l : List Int) :
    l.foldl aggStep Result.PASS =
      if Result.FAIL ∈ l then Result.FAIL else Result.PASS := by
  induction l with
  | nil => simp
  | cons r l ih =>
      by_cases hr : r = Result.FAIL
      · subst hr
        have h1 : aggStep Result.PASS Result.FAIL = Result.FAIL := by decide
        simp [List.foldl_cons, h1, agg_fold_from_fail]
      · have h1 : aggStep Result.PASS r = Result.PASS := by
          have hr2 : ¬r = (2 : Int) := hr
          show (if r = (1 : Int) ∧ (1 : Int) = 3 then (1 : Int)
            else if r = (2 : Int) then 2 else 1) = 1
          rw [if_neg (by omega), if_neg (by omega)]
        have hr' : ¬(Result.FAIL = r) := fun h => hr h.symm
        simp [List.foldl_cons, h1, ih, List.mem_cons, hr']

theorem agg_fold_from_skip (l : List Int) :
    l.foldl aggStep Result.SKIP =
      if Result.FAIL ∈ l then Result.FAIL
      else if Result.PASS ∈ l then Result.PASS
      else Result.SKIP := by
  induction l with
  | nil => simp
  | cons r l ih =>
      by_cases hr2 : r = Result.FAIL
      · subst hr2
        have h1 : aggStep Result.SKIP Result.FAIL = Result.FAIL := by decide
        simp [List.foldl_cons, h1, agg_fold_from_fail]
      · by_cases hr1 : r = Result.PASS
        · subst hr1
          have h1 : aggStep Result.SKIP Result.PASS = Result.PASS := by decide
          have h2 : ¬(Result.FAIL = Result.PASS) := by decide
          simp [List.foldl_cons, h1, agg_fold_from_pass, List.mem_cons, h2]
        · have h1 : aggStep Result.SKIP r = Result.SKIP := by
            have hr1n : ¬r = (1 : Int) := hr1
            have hr2n : ¬r = (2 : Int) := hr2
            show (if r = (1 : Int) ∧ (3 : Int) = 3 then (1 : Int)
              else if r = (2 : Int) then 2 else 3) = 3
            rw [if_neg (by omega), if_neg (by omega)]
          have hr1' : ¬(Result.PASS = r) := fun h => hr1 h.symm
          have hr2' : ¬(Result.FAIL = r) := fun h => hr2 h.symm
          simp [List.foldl_cons, h1, ih, List.mem_cons, hr1', hr2']

/-- Claim C2: over any sequence of add_result calls with member outcomes in
the PASS/FAIL/SKIP set, the aggregate starts at SKIP, equals FAIL whenever a
FAIL member was added no matter what was added around it, equals PASS when
some PASS and no FAIL member was added, equals SKIP when neither a PASS nor
a FAIL member was added; each call appends exactly one member and members
are never removed. -/
theorem c2_group_aggregate (adds : List (String × TestResult))
    (hv : ∀ a ∈ adds, a.2.result = Result.PASS ∨ a.2.result = Result.FAIL ∨
      a.2.result = Result.SKIP) :
    GroupTestResult.init._group_result = Result.SKIP
    ∧ (group_of_adds adds)._results_list = adds
    ∧ (∀ (g : GroupTestResult) (name : String) (r : TestResult),
        (g.add_result name r)._results_list = g._results_list ++ [(name, r)])
    ∧ ((∃ a ∈ adds, a.2.result = Result.FAIL) →
        (group_of_adds adds)._group_result = Result.FAIL)
    ∧ ((∃ a ∈ adds, a.2.result = Result.PASS) →
        (∀ a ∈ adds, a.2.result ≠ Result.FAIL) →
        (group_of_adds adds)._group_result = Result.PASS)
    ∧ ((∀ a ∈ adds, a.2.result ≠ Result.PASS ∧ a.2.result ≠ Result.FAIL) →
        (group_of_adds adds)._group_result = Result.SKIP) := by
  have hlist := foldl_add_result_results_list adds GroupTestResult.init
  have hagg := foldl_add_result_group_result adds GroupTestResult.init
  have hchar := agg_fold_from_skip (adds.map fun a => a.2.result)
  refine ⟨rfl, ?_, fun g name r => rfl, ?_, ?_, ?_⟩
  · simpa [GroupTestResult.init] using hlist
  · intro hyp
    have hmem : Result.FAIL ∈ adds.map fun a => a.2.result := by
      rcases hyp with ⟨a, ha, hfa⟩
      exact List.mem_map.mpr ⟨a, ha, hfa⟩
    unfold group_of_adds
    rw [hagg]
    show (adds.map fun a => a.2.result).foldl aggStep Result.SKIP = Result.FAIL
    rw [hchar, if_pos hmem]
  · intro hpass hnofail
    have hmemp : Result.PASS ∈ adds.map fun a => a.2.result := by
      rcases hpass with ⟨a, ha, hpa⟩
      exact List.mem_map.mpr ⟨a, ha, hpa⟩
    have hmemf : Result.FAIL ∉ adds.map fun a => a.2.result := by
      intro hmem
      rcases List.mem_map.mp hmem with ⟨a, ha, hfa⟩
      exact hnofail a ha hfa
    unfold group_of_adds
    rw [hagg]
    show (adds.map fun a => a.2.result).foldl aggStep Result.SKIP = Result.PASS
    rw [hchar, if_neg hmemf, if_pos hmemp]
  · intro hnone
    have hmemp : Result.PASS ∉ adds.map fun a => a.2.result := by
      intro hmem
      rcases List.mem_map.mp hmem with ⟨a, ha, hpa⟩
      exact (hnone a ha).1 hpa
    have hmemf : Result.FAIL ∉ adds.map fun a => a.2.result := by
      intro hmem
      rcases List.mem_map.mp hmem with ⟨a, ha, hfa⟩
      exact (hnone a ha).2 hfa
    unfold group_of_adds
    rw [hagg]
    show (adds.map fun a => a.2.result).foldl aggStep Result.SKIP = Result.SKIP
    rw [hchar, if_neg hmemf, if_neg hmemp]

/-- Witness for claim C2 on a concrete PASS, FAIL, PASS add sequence. -/
theorem c2_group_aggregate_witness :
    (∀ a ∈ c2_adds, a.2.result = Result.PASS ∨ a.2.result = Result.FAIL ∨
      a.2.result = Result.SKIP) ∧
    (GroupTestResult.init._group_result = Result.SKIP
    ∧ (group_of_adds c2_adds)._results_list = c2_adds
    ∧ (∀ (g : GroupTestResult) (name : String) (r : TestResult),
        (g.add_result name r)._results_list = g._results_list ++ [(name, r)])
    ∧ ((∃ a ∈ c2_adds, a.2.result = Result.FAIL) →
        (group_of_adds c2_adds)._group_result = Result.FAIL)
    ∧ ((∃ a ∈ c2_adds, a.2.result = Result.PASS) →
        (∀ a ∈ c2_adds, a.2.result ≠ Result.FAIL) →
        (group_of_adds c2_adds)._group_result = Result.PASS)
    ∧ ((∀ a ∈ c2_adds, a.2.result ≠ Result.PASS ∧
          a.2.result ≠ Result.FAIL) →
        (group_of_adds c2_adds)._group_result = Result.SKIP)) :=
  ⟨by decide, c2_group_aggregate c2_adds (by decide)⟩

/-- Claim C3: for each of the four defined verbosity levels, the visibility
filter shows FAIL exactly at FAIL_ONLY, NOT_PASS and ALL; shows SKIP exactly
at NOT_PASS and ALL; and shows PASS exactly at ALL. -/
theorem c3_visibility_filter (d : Int)
    (hd : d = ResultDisplayType.DISPLAY_OVERALL_ONLY ∨
      d = ResultDisplayType.DISPLAY_FAIL_ONLY ∨
      d = ResultDisplayType.DISPLAY_NOT_PASS ∨
      d = ResultDisplayType.DISPLAY_ALL) :
    (_check_display_result Result.FAIL d = true ↔
      (d = ResultDisplayType.DISPLAY_FAIL_ONLY ∨
        d = ResultDisplayType.DISPLAY_NOT_PASS ∨
        d = ResultDisplayType.DISPLAY_ALL)) ∧
    (_check_display_result Result.SKIP d = true ↔
      (d = ResultDisplayType.DISPLAY_NOT_PASS ∨
        d = ResultDisplayType.DISPLAY_ALL)) ∧
    (_check_display_result Result.PASS d = true ↔
      d = ResultDisplayType.DISPLAY_ALL) := by
  rcases hd with h | h | h | h <;> subst h <;> refine ⟨?_, ?_, ?_⟩ <;> decide

/-- Witness for claim C3 at verbosity NOT_PASS. -/
theorem c3_visibility_filter_witness :
    ((3 : Int) = ResultDisplayType.DISPLAY_OVERALL_ONLY ∨
      (3 : Int) = ResultDisplayType.DISPLAY_FAIL_ONLY ∨
      (3 : Int) = ResultDisplayType.DISPLAY_NOT_PASS ∨
      (3 : Int) = ResultDisplayType.DISPLAY_ALL) ∧
    ((_check_display_result Result.FAIL 3 = true ↔
      ((3 : Int) = ResultDisplayType.DISPLAY_FAIL_ONLY ∨
        (3 : Int) = ResultDisplayType.DISPLAY_NOT_PASS ∨
        (3 : Int) = ResultDisplayType.DISPLAY_ALL)) ∧
    (_check_display_result Result.SKIP 3 = true ↔
      ((3 : Int) = ResultDisplayType.DISPLAY_NOT_PASS ∨
        (3 : Int) = ResultDisplayType.DISPLAY_ALL)) ∧
    (_check_display_result Result.PASS 3 = true ↔
      (3 : Int) = ResultDisplayType.DISPLAY_ALL)) :=
  ⟨by decide, c3_visibility_filter 3 (by decide)⟩

/-- Claim C1 (evaluation at the failing input): the had_failures query
returns false on a collection whose only entry is a bare result record with
outcome FAIL, because the source compares the record object itself with the
outcome constant instead of its outcome field; on a group entry whose
aggregate is FAIL it returns true. -/
theorem c1_had_failures_misses_bare_fail :
    (∃ tr : TestResult,
      c1_collection._results =
        [{ name := "t1", result := ResultValue.single tr }] ∧
      tr.result = Result.FAIL)
    ∧ c1_collection.had_failures = false
    ∧ c1_group_collection.had_failures = true :=
  ⟨⟨_, rfl, rfl⟩, rfl, rfl⟩

/-- Claim C4 (evaluation at the failing input): at verbosity FAIL_ONLY a
group whose aggregate outcome is FAIL passes the visibility filter and the
verbosity is not OVERALL_ONLY, yet the HTML renderer emits only the member
row and not the parent row, because the filter is called on the entry dict
instead of the aggregate outcome. -/
theorem c4_html_parent_row_dropped :
    _check_display_result c4_group.result
      ResultDisplayType.DISPLAY_FAIL_ONLY = true
    ∧ ResultDisplayType.DISPLAY_FAIL_ONLY ≠
        ResultDisplayType.DISPLAY_OVERALL_ONLY
    ∧ ∃ rows parent,
        _html_entry_rows c4_entry ResultDisplayType.DISPLAY_FAIL_ONLY =
          Except.ok rows
        ∧ _create_html_group_row c4_entry.name c4_group = Except.ok parent
        ∧ parent ∉ rows := by
  refine ⟨rfl, by decide, ?_⟩
  refine ⟨_, _, rfl, rfl, ?_⟩
  decide

/-- Claim C8: the terminal confidence dict lookup maps SURE and absent
confidence to the empty string and GUESS to the guess text, and the row
builder _build_result_string raises KeyError for any other confidence
value. -/
theorem c8_terminal_confidence_lookup (c : Int)
    (h1 : c ≠ Result.CONF_SURE) (h2 : c ≠ Result.CONF_GUESS) :
    conf_string_lookup (some Result.CONF_SURE) = Except.ok ""
    ∧ conf_string_lookup none = Except.ok ""
    ∧ conf_string_lookup (some Result.CONF_GUESS) = Except.ok "guess"
    ∧ conf_string_lookup (some c) = Except.error PyExn.keyError
    ∧ ∀ (name : String) (result : Int) (notes : Option String)
        (use_color : Bool) (tc : TermColors) (indent : Bool) (w : Widths),
        _build_result_string name result (some c) notes use_color tc
          indent w = Except.error PyExn.keyError := by
  have hlook : conf_string_lookup (some c) = Except.error PyExn.keyError := by
    simp [conf_string_lookup, h1, h2]
  refine ⟨rfl, rfl, rfl, hlook, ?_⟩
  intro name result notes use_color tc indent w
  unfold _build_result_string
  rw [hlook]

/-- Witness for claim C8 at the malformed confidence value 2. -/
theorem c8_terminal_confidence_lookup_witness :
    ((2 : Int) ≠ Result.CONF_SURE) ∧ ((2 : Int) ≠ Result.CONF_GUESS) ∧
    (conf_string_lookup (some Result.CONF_SURE) = Except.ok ""
    ∧ conf_string_lookup none = Except.ok ""
    ∧ conf_string_lookup (some Result.CONF_GUESS) = Except.ok "guess"
    ∧ conf_string_lookup (some 2) = Except.error PyExn.keyError
    ∧ ∀ (name : String) (result : Int) (notes : Option String)
        (use_color : Bool) (tc : TermColors) (indent : Bool) (w : Widths),
        _build_result_string name result (some 2) notes use_color tc
          indent w = Except.error PyExn.keyError) :=
  ⟨by decide, by decide,
    c8_terminal_confidence_lookup 2 (by decide) (by decide)⟩

/-- Claim C10: the CSV confidence conversion is total: sure and guess map
to their strings and any other value maps to None, an empty cell, so the
CSV writer returns normally on every input collection and file system. -/
theorem c10_confidence_text_total (c : Option Int)
    (h1 : c ≠ some Result.CONF_SURE) (h2 : c ≠ some Result.CONF_GUESS) :
    _confidence_text (some Result.CONF_SURE) = some "sure"
    ∧ _confidence_text (some Result.CONF_GUESS) = some "guess"
    ∧ _confidence_text c = none
    ∧ ∀ (t : TestResults) (filename : String) (fs : FileSystem),
        ∃ out, t.write_csv filename fs = Except.ok out := by
  refine ⟨rfl, rfl, ?_, ?_⟩
  · unfold _confidence_text
    rw [if_neg h2, if_neg h1]
  · intro t filename fs
    unfold TestResults.write_csv
    cases hfs : fs.open_write filename with
    | error e => exact ⟨_, rfl⟩
    | ok u => exact ⟨_, rfl⟩

/-- Witness for claim C10 at the malformed confidence value 2. -/
theorem c10_confidence_text_total_witness :
    (some (2 : Int) ≠ some Result.CONF_SURE)
    ∧ (some (2 : Int) ≠ some Result.CONF_GUESS)
    ∧ (_confidence_text (some Result.CONF_SURE) = some "sure"
    ∧ _confidence_text (some Result.CONF_GUESS) = some "guess"
    ∧ _confidence_text (some 2) = none
    ∧ ∀ (t : TestResults) (filename : String) (fs : FileSystem),
        ∃ out, t.write_csv filename fs = Except.ok out) :=
  ⟨by decide, by decide,
    c10_confidence_text_total (some 2) (by decide) (by decide)⟩

/-- Claim C9: in the terminal renderer, when a group aggregate does not
pass the visibility filter and the verbosity is not OVERALL_ONLY, the entry
prints nothing at all: no child row appears, even for children whose own
outcome passes the filter. -/
theorem c9_terminal_children_gated_by_parent (name : String)
    (g : GroupTestResult) (d : Int) (use_color : Bool) (tc : TermColors)
    (w : Widths) (nw : Int) (lines : List String)
    (hfilter : _check_display_result g.result d = false)
    (hover : d ≠ ResultDisplayType.DISPLAY_OVERALL_ONLY)
    (heval : _terminal_entry_lines
      { name := name, result := ResultValue.group g } d use_color tc w nw =
      Except.ok lines) :
    lines = [] := by
  cases hm : (g._results_list.filter fun c =>
      _check_display_result c.2.result d).mapM
      (fun c => _build_result_string c.1 c.2.result c.2.confidence
        (truncate_notes c.2.notes nw) use_color tc true w) with
  | error e =>
      simp only [_terminal_entry_lines, hm] at heval
      exact Except.noConfusion heval
  | ok child_results =>
      simp only [_terminal_entry_lines, hm] at heval
      have hcond : ¬(_check_display_result g.result d = true ∨
          d = ResultDisplayType.DISPLAY_OVERALL_ONLY) := by
        rintro (h | h)
        · rw [hfilter] at h; exact Bool.false_ne_true h
        · exact hover h
      rw [if_neg hcond] at heval
      injection heval with h
      exact h.symm

/-- Witness for claim C9: a group whose aggregate is PASS at verbosity
NOT_PASS prints nothing, although its SKIP member itself passes the
filter. -/
theorem c9_terminal_children_gated_witness :
    _check_display_result c9_group.result
      ResultDisplayType.DISPLAY_NOT_PASS = false
    ∧ ResultDisplayType.DISPLAY_NOT_PASS ≠
        ResultDisplayType.DISPLAY_OVERALL_ONLY
    ∧ _check_display_result Result.SKIP
        ResultDisplayType.DISPLAY_NOT_PASS = true
    ∧ _terminal_entry_lines
        { name := "grp", result := ResultValue.group c9_group }
        ResultDisplayType.DISPLAY_NOT_PASS true default_colors
        (display_widths 80) (notes_width (display_widths 80)) =
        Except.ok []
    ∧ ([] : List String) = [] :=
  ⟨rfl, by decide, rfl, rfl,
    c9_terminal_children_gated_by_parent "grp" c9_group
      ResultDisplayType.DISPLAY_NOT_PASS true default_colors
      (display_widths 80) (notes_width (display_widths 80)) [] rfl
      (by decide) rfl⟩

theorem py_slice_to_nonneg (s : String) (k : Int) (h : 0 ≤ k) :
    py_slice_to s k = String.mk (s.toList.take k.toNat) := by
  unfold py_slice_to
  rw [if_pos h]

/-- Claim C6 counterexample: at the default 80-column terminal the computed
notes column width is 0; the notes string ab exceeds it, and the rendered
notes are three dots, of length 3 and not of length 0 as the claim
requires. -/
theorem c6_truncation_counterexample :
    notes_width (display_widths 80) = 0
    ∧ ("ab" : String).length ≠ 0
    ∧ ((("ab" : String).length : Int) > notes_width (display_widths 80))
    ∧ truncate_notes (some "ab") (notes_width (display_widths 80)) =
        some "..."
    ∧ ((("..." : String).length : Int) ≠ notes_width (display_widths 80)) := by
  refine ⟨rfl, by decide, by decide, rfl, by decide⟩

/-- Claim C6 as amended: when the computed notes column width is at least 3,
notes longer than the width render as their first width minus 3 characters
followed by three dots, with total length exactly the width, and notes not
exceeding the width render unchanged. The notes column width is the total
terminal width minus the name, result and confidence column widths. -/
theorem c6_amended_truncation (w : Int) (n : String) (h3 : 3 ≤ w) :
    (∀ tw : Int, notes_width (display_widths tw) = tw - 60 - 9 - 11)
    ∧ ((n.length : Int) > w →
        truncate_notes (some n) w =
          some (String.mk (n.toList.take (w - 3).toNat) ++ "...")
        ∧ ∀ r, truncate_notes (some n) w = some r → (r.length : Int) = w)
    ∧ ((n.length : Int) ≤ w → truncate_notes (some n) w = some n) := by
  refine ⟨fun tw => rfl, ?_, ?_⟩
  · intro hgt
    have hne : n.length ≠ 0 := by
      intro h0
      rw [h0] at hgt
      norm_num at hgt
      omega
    have heq : truncate_notes (some n) w =
        some (py_slice_to n (w - 3) ++ "...") := by
      simp only [truncate_notes]
      rw [if_pos ⟨hne, hgt⟩]
    have hslice : py_slice_to n (w - 3) =
        String.mk (n.toList.take (w - 3).toNat) :=
      py_slice_to_nonneg n (w - 3) (by omega)
    refine ⟨by rw [heq, hslice], ?_⟩
    intro r hr
    rw [heq, hslice] at hr
    have hr' : r = String.mk (n.toList.take (w - 3).toNat) ++ "..." :=
      (Option.some.inj hr).symm
    subst hr'
    rw [String.length_append]
    have hmk : (String.mk (n.toList.take (w - 3).toNat)).length =
        (n.toList.take (w - 3).toNat).length := rfl
    have hlist : n.toList.length = n.length := rfl
    rw [hmk, List.length_take, hlist]
    have hdots : ("..." : String).length = 3 := rfl
    rw [hdots]
    omega
  · intro hle
    simp only [truncate_notes]
    rw [if_neg]
    rintro ⟨-, hcontra⟩
    exact absurd hcontra (not_lt.mpr hle)

/-- Witness for claim C6 as amended at width 5 with a 7-character notes
string: rendered as the first 2 characters plus three dots, length 5. -/
theorem c6_amended_truncation_witness :
    (3 : Int) ≤ 5
    ∧ ((∀ tw : Int, notes_width (display_widths tw) = tw - 60 - 9 - 11)
    ∧ ((("abcdefg" : String).length : Int) > 5 →
        truncate_notes (some "abcdefg") 5 =
          some (String.mk (("abcdefg" : String).toList.take
            ((5 : Int) - 3).toNat) ++ "...")
        ∧ ∀ r, truncate_notes (some "abcdefg") 5 = some r →
            (r.length : Int) = 5)
    ∧ ((("abcdefg" : String).length : Int) ≤ 5 →
        truncate_notes (some "abcdefg") 5 = some "abcdefg")) :=
  ⟨by decide, c6_amended_truncation 5 "abcdefg" (by decide)⟩

/-- Claim C7: an EnvironmentError from opening the destination is caught by
each of the CSV, JSON and HTML writers, which log the failure and return
normally without writing anything; an HTML template read failure is caught
and logged likewise and aborts before any output write. -/
theorem c7_writers_recover_env_errors (t : TestResults)
    (filename template : String) (d : Int) (fs : FileSystem) :
    (∀ e, fs.open_write filename = Except.error e →
      (∃ out, t.write_csv filename fs = Except.ok out ∧ out.written = none
        ∧ ("Unable to open CSV file [ " ++ filename ++ " ] for writing") ∈
            out.logs)
      ∧ (∃ out, t.write_json filename fs = Except.ok out ∧ out.written = none
        ∧ ("Unable to open JSON file [ " ++ filename ++ " ] for writing!") ∈
            out.logs))
    ∧ (∀ e rows, fs.read_file template = Except.error e →
        t.html_rows d = Except.ok rows →
        ∃ out, t.write_html filename template d fs = Except.ok out
          ∧ out.written = none
          ∧ ("Unable to open template file: [ " ++ template ++ " ]") ∈
              out.logs)
    ∧ (∀ tc e rows, fs.read_file template = Except.ok tc →
        fs.open_write filename = Except.error e →
        t.html_rows d = Except.ok rows →
        ∃ out, t.write_html filename template d fs = Except.ok out
          ∧ out.written = none
          ∧ ("Unable to open output file: [ " ++ filename ++
              " ] for writing") ∈ out.logs) := by
  refine ⟨?_, ?_, ?_⟩
  · intro e he
    constructor
    · have hcsv : t.write_csv filename fs = Except.ok
          { written := none,
            logs := ["Preparing to write CSV file [ " ++ filename ++ " ] ",
              "Unable to open CSV file [ " ++ filename ++
                " ] for writing"] } := by
        unfold TestResults.write_csv
        rw [he]
      exact ⟨_, hcsv, rfl, by simp⟩
    · have hjson : t.write_json filename fs = Except.ok
          { written := none,
            logs := ["Preparing to write JSON file [ " ++ filename ++ " ]",
              "Unable to open JSON file [ " ++ filename ++
                " ] for writing!"] } := by
        unfold TestResults.write_json
        rw [he]
      exact ⟨_, hjson, rfl, by simp⟩
  · intro e rows hread hrows
    have hhtml : t.write_html filename template d fs = Except.ok
        { written := none,
          logs := ["Preparing to write HTML file: [ " ++ filename ++ " ]",
            "Unable to open template file: [ " ++ template ++ " ]"] } := by
      unfold TestResults.write_html
      rw [hrows, hread]
    exact ⟨_, hhtml, rfl, by simp⟩
  · intro tc e rows hread hopen hrows
    have hhtml : t.write_html filename template d fs = Except.ok
        { written := none,
          logs := ["Preparing to write HTML file: [ " ++ filename ++ " ]",
            "Unable to open output file: [ " ++ filename ++
              " ] for writing"] } := by
      unfold TestResults.write_html
      rw [hrows, hread, hopen]
    exact ⟨_, hhtml, rfl, by simp⟩

/-- Witness for claim C7 on concrete failing file systems. -/
theorem c7_writers_recover_env_errors_witness :
    (∃ out, c1_collection.write_csv "res.csv" fs_all_fail = Except.ok out
      ∧ out.written = none
      ∧ ("Unable to open CSV file [ " ++ "res.csv" ++ " ] for writing") ∈
          out.logs)
    ∧ (∃ out, c1_collection.write_json "res.csv" fs_all_fail = Except.ok out
      ∧ out.written = none
      ∧ ("Unable to open JSON file [ " ++ "res.csv" ++ " ] for writing!") ∈
          out.logs)
    ∧ (∃ out, c1_collection.write_html "res.html" "tmpl.html"
        ResultDisplayType.DISPLAY_NOT_PASS fs_all_fail = Except.ok out
      ∧ out.written = none
      ∧ ("Unable to open template file: [ " ++ "tmpl.html" ++ " ]") ∈
          out.logs)
    ∧ (∃ out, c1_collection.write_html "res.html" "tmpl.html"
        ResultDisplayType.DISPLAY_NOT_PASS fs_open_fail_read_ok =
          Except.ok out
      ∧ out.written = none
      ∧ ("Unable to open output file: [ " ++ "res.html" ++
          " ] for writing") ∈ out.logs) :=
  ⟨((c7_writers_recover_env_errors c1_collection "res.csv" "tmpl.html"
      ResultDisplayType.DISPLAY_NOT_PASS fs_all_fail).1
      PyExn.environmentError rfl).1,
   ((c7_writers_recover_env_errors c1_collection "res.csv" "tmpl.html"
      ResultDisplayType.DISPLAY_NOT_PASS fs_all_fail).1
      PyExn.environmentError rfl).2,
   (c7_writers_recover_env_errors c1_collection "res.html" "tmpl.html"
      ResultDisplayType.DISPLAY_NOT_PASS fs_all_fail).2.1
      PyExn.environmentError _ rfl rfl,
   (c7_writers_recover_env_errors c1_collection "res.html" "tmpl.html"
      ResultDisplayType.DISPLAY_NOT_PASS fs_open_fail_read_ok).2.2
      "$$$RESULTS$$$" PyExn.environmentError _ rfl rfl rfl⟩

theorem csv_rows_eq_map_leaves (t : TestResults) :
    t.csv_rows = t.leaves.map csv_row_of_leaf := by
  obtain ⟨rs⟩ := t
  induction rs with
  | nil => rfl
  | cons e rs ih =>
      cases hres : e.result with
      | single tr =>
          simp only [TestResults.csv_rows, TestResults.leaves, hres,
            List.flatMap_cons, List.map_append, List.map_map,
            List.singleton_append, List.map_cons] at ih ⊢
          rw [ih]
          rfl
      | group g =>
          simp only [TestResults.csv_rows, TestResults.leaves, hres,
            List.flatMap_cons, List.map_append, List.map_map,
            List.singleton_append, List.map_cons] at ih ⊢
          rw [ih]
          rfl

theorem json_leaves_eq_map_leaves (t : TestResults) :
    t.json_tests.flatMap json_entry_leaves = t.leaves.map json_leaf_repr := by
  obtain ⟨rs⟩ := t
  induction rs with
  | nil => rfl
  | cons e rs ih =>
      cases hres : e.result with
      | single tr =>
          simp only [TestResults.json_tests, TestResults.leaves, hres,
            List.map_cons, List.flatMap_cons, List.map_append, List.map_map,
            List.singleton_append, json_entry_leaves, json_leaf_repr] at ih ⊢
          rw [ih]
          cases _result_text tr.result <;> rfl
      | group g =>
          simp only [TestResults.json_tests, TestResults.leaves, hres,
            List.map_cons, List.flatMap_cons, List.map_append, List.map_map,
            List.singleton_append, json_entry_leaves] at ih ⊢
          rw [ih]
          rfl

/-- Claim C5: the CSV renderer emits exactly one data row per leaf record
and the JSON renderer exactly one leaf object per leaf record, both in
collection order (neither writer takes a verbosity argument); an empty
collection yields a CSV file holding only the header row and a JSON file
holding an empty array. -/
theorem c5_csv_json_full_dump (t : TestResults) (filename : String)
    (fs : FileSystem) (hopen : fs.open_write filename = Except.ok ()) :
    t.csv_rows = t.leaves.map csv_row_of_leaf
    ∧ t.json_tests.flatMap json_entry_leaves = t.leaves.map json_leaf_repr
    ∧ (∃ out, (TestResults.mk []).write_csv filename fs = Except.ok out
        ∧ out.written = some [csv_header_row])
    ∧ (∃ out, (TestResults.mk []).write_json filename fs = Except.ok out
        ∧ out.written = some (JsonVal.arr [])) := by
  refine ⟨csv_rows_eq_map_leaves t, json_leaves_eq_map_leaves t, ?_, ?_⟩
  · have h : (TestResults.mk []).write_csv filename fs = Except.ok
        { written := some [csv_header_row],
          logs := ["Preparing to write CSV file [ " ++ filename ++ " ] ",
            "Writing CSV file: [ " ++ filename ++ " ] successful "] } := by
      unfold TestResults.write_csv
      rw [hopen]
      rfl
    exact ⟨_, h, rfl⟩
  · have h : (TestResults.mk []).write_json filename fs = Except.ok
        { written := some (JsonVal.arr []),
          logs := ["Preparing to write JSON file [ " ++ filename ++ " ]",
            "Writing JSON file: [ " ++ filename ++ " ] successful!"] } := by
      unfold TestResults.write_json
      rw [hopen]
      rfl
    exact ⟨_, h, rfl⟩

/-- Witness for claim C5 on a collection with one bare record and one
two-member group, against a file system whose opens succeed. -/
theorem c5_csv_json_full_dump_witness :
    fs_all_ok.open_write "res.csv" = Except.ok ()
    ∧ (c5_collection.csv_rows = c5_collection.leaves.map csv_row_of_leaf
    ∧ c5_collection.json_tests.flatMap json_entry_leaves =
        c5_collection.leaves.map json_leaf_repr
    ∧ (∃ out, (TestResults.mk []).write_csv "res.csv" fs_all_ok =
        Except.ok out ∧ out.written = some [csv_header_row])
    ∧ (∃ out, (TestResults.mk []).write_json "res.csv" fs_all_ok =
        Except.ok out ∧ out.written = some (JsonVal.arr []))) :=
  ⟨rfl, c5_csv_json_full_dump c5_collection "res.csv" fs_all_ok rfl⟩

end Recon
